import Mathlib

/-!
Verification of the vasili plot-rendering script (src/render_plot.py).

The script loads a headerless CSV of ping samples, partitions rows by the
"Type" column into an Internet and a Gateway dataframe, derives per-kind
jitter over the status=OK rows, extracts status=TIMEOUT rows as loss events,
renders the series with matplotlib and saves a PNG next to the input file.

Shallow embedding conventions:
* A dataframe is a `List Row` in file order; pandas column operations become
  list operations.
* The float64 Latency column is modelled as `Option ℚ`: `none` stands for
  pandas NaN (an empty latency field in the CSV).  The pandas primitives
  used by the script (`diff`, `abs`, `fillna`, `max`, comparisons) propagate
  or skip NaN exactly as modelled below.
* Timestamps are kept as the raw field string: `pd.to_datetime` only turns
  them into instants and every property below depends only on their identity
  and relative order.
-/

namespace RenderPlot

/-- One parsed CSV record.  The columns are, in order:
Timestamp, Type, Target, Latency, Status (the script passes
cols = ["Timestamp", "Type", "Target", "Latency", "Status"]).
The "Type" column is named `kind` here because Type is a Lean keyword.
`latency` is `none` when the field is empty (pandas NaN). -/
structure Row where
  timestamp : String
  kind : String
  target : String
  latency : Option ℚ
  status : String
deriving DecidableEq

/-- internet = df[df["Type"] == "Internet"] -/
def internet (df : List Row) : List Row :=
  df.filter (fun r => r.kind == "Internet")

/-- gateway = df[df["Type"] == "Gateway"] -/
def gateway (df : List Row) : List Row :=
  df.filter (fun r => r.kind == "Gateway")

/-- internet_ok = internet[internet["Status"] == "OK"] -/
def internet_ok (df : List Row) : List Row :=
  (internet df).filter (fun r => r.status == "OK")

/-- gateway_ok = gateway[gateway["Status"] == "OK"] -/
def gateway_ok (df : List Row) : List Row :=
  (gateway df).filter (fun r => r.status == "OK")

/-- net_loss = internet[internet["Status"] == "TIMEOUT"] -/
def net_loss (df : List Row) : List Row :=
  (internet df).filter (fun r => r.status == "TIMEOUT")

/-- gw_loss = gateway[gateway["Status"] == "TIMEOUT"] -/
def gw_loss (df : List Row) : List Row :=
  (gateway df).filter (fun r => r.status == "TIMEOUT")

/-- Subtraction on the NaN-extended rationals: `none` (NaN) is absorbing,
as for float64 subtraction in pandas. -/
def optSub (a b : Option ℚ) : Option ℚ :=
  match a, b with
  | some x, some y => some (x - y)
  | _, _ => none

/-- Tail of `Series.diff`: each element minus its predecessor, where `prev`
is the element just before the current suffix. -/
def diffAux (prev : Option ℚ) : List (Option ℚ) → List (Option ℚ)
  | [] => []
  | x :: t => optSub x prev :: diffAux x t

/-- pandas `Series.diff()`: first element becomes NaN, every later element
becomes (current − previous); NaN operands give NaN. -/
def seriesDiff : List (Option ℚ) → List (Option ℚ)
  | [] => []
  | x :: t => none :: diffAux x t

/-- pandas `Series.abs()`: elementwise absolute value, NaN stays NaN. -/
def seriesAbs (xs : List (Option ℚ)) : List (Option ℚ) :=
  xs.map (Option.map (fun q => |q|))

/-- pandas `Series.fillna(v)`: replace every NaN by `v`. -/
def fillna (v : ℚ) (xs : List (Option ℚ)) : List ℚ :=
  xs.map (fun o => o.getD v)

/-- `s.diff().abs().fillna(0)` — the jitter column the script adds to each
OK-filtered dataframe. -/
def jitterSeries (xs : List (Option ℚ)) : List ℚ :=
  fillna 0 (seriesAbs (seriesDiff xs))

/-- The Latency column of internet_ok. -/
def internet_ok_latency (df : List Row) : List (Option ℚ) :=
  (internet_ok df).map Row.latency

/-- internet_ok["Jitter"] = internet_ok["Latency"].diff().abs().fillna(0) -/
def internet_ok_jitter (df : List Row) : List ℚ :=
  jitterSeries (internet_ok_latency df)

/-- The Latency column of gateway_ok. -/
def gateway_ok_latency (df : List Row) : List (Option ℚ) :=
  (gateway_ok df).map Row.latency

/-- gateway_ok["Jitter"] = gateway_ok["Latency"].diff().abs().fillna(0) -/
def gateway_ok_jitter (df : List Row) : List ℚ :=
  jitterSeries (gateway_ok_latency df)

/-- pandas `Series.max()` with the default skipna=True: the maximum of the
non-NaN entries, NaN (`none`) when there is none. -/
def seriesMax : List (Option ℚ) → Option ℚ
  | [] => none
  | none :: xs => seriesMax xs
  | some a :: xs =>
    match seriesMax xs with
    | none => some a
    | some b => some (max a b)

/-- y_loss_level = internet_ok["Latency"].max() if not internet_ok.empty
else 100; if y_loss_level < 50: y_loss_level = 50.
A NaN level (`none`) fails the `< 50` test in Python, so it stays NaN. -/
def y_loss_level (df : List Row) : Option ℚ :=
  let base : Option ℚ :=
    if (internet_ok df).isEmpty then some 100 else seriesMax (internet_ok_latency df)
  match base with
  | none => none
  | some v => if v < 50 then some 50 else some v

/-- `frame["Target"].iloc[0] if not frame.empty else "?"` — the target label
interpolated into the legend entries. -/
def firstTarget : List Row → String
  | [] => "?"
  | r :: _ => r.target

/-- One matplotlib artist added by a plt.plot / plt.scatter call:
its legend label, x data, y data and whether it is a scatter series. -/
structure Series where
  label : String
  xs : List String
  ys : List (Option ℚ)
  isScatter : Bool
deriving DecidableEq

/-- The sequence of plt.plot / plt.scatter calls the script makes, in order:
the two internet series unconditionally, the two gateway series only when
gateway_ok is non-empty, and one loss scatter per kind only when that loss
set is non-empty; both scatters sit at the single level `y_loss_level`. -/
def chart (df : List Row) : List Series :=
  [ { label := "Internet Ping (" ++ firstTarget (internet_ok df) ++ ")",
      xs := (internet_ok df).map Row.timestamp,
      ys := (internet_ok df).map Row.latency,
      isScatter := false },
    { label := "Internet Jitter",
      xs := (internet_ok df).map Row.timestamp,
      ys := (internet_ok_jitter df).map some,
      isScatter := false } ]
  ++ (if (gateway_ok df).isEmpty then [] else
    [ { label := "Gateway Ping (" ++ firstTarget (gateway_ok df) ++ ")",
        xs := (gateway_ok df).map Row.timestamp,
        ys := (gateway_ok df).map Row.latency,
        isScatter := false },
      { label := "Gateway Jitter",
        xs := (gateway_ok df).map Row.timestamp,
        ys := (gateway_ok_jitter df).map some,
        isScatter := false } ])
  ++ (if (net_loss df).isEmpty then [] else
    [ { label := "Internet Loss",
        xs := (net_loss df).map Row.timestamp,
        ys := List.replicate (net_loss df).length (y_loss_level df),
        isScatter := true } ])
  ++ (if (gw_loss df).isEmpty then [] else
    [ { label := "Gateway Loss",
        xs := (gw_loss df).map Row.timestamp,
        ys := List.replicate (gw_loss df).length (y_loss_level df),
        isScatter := true } ])

/-- The character list of the literal ".csv". -/
def csvL : List Char := ['.', 'c', 's', 'v']

/-- The character list of the literal ".png". -/
def pngL : List Char := ['.', 'p', 'n', 'g']

/-- Python `s.replace(".csv", ".png")`: every occurrence of ".csv" is
replaced, scanning left to right without overlap.  Filenames are modelled
as their character lists. -/
def replaceCsvPng : List Char → List Char
  | '.' :: 'c' :: 's' :: 'v' :: rest => '.' :: 'p' :: 'n' :: 'g' :: replaceCsvPng rest
  | c :: rest => c :: replaceCsvPng rest
  | [] => []

/-- output_filename = filename.replace(".csv", ".png");
if output_filename == filename: output_filename += ".png" -/
def output_filename (filename : List Char) : List Char :=
  let out := replaceCsvPng filename
  if out = filename then out ++ pngL else out

/-- `output_filename` on `String`. -/
def output_filename_str (filename : String) : String :=
  String.mk (output_filename filename.toList)

/-- The rule the specification states for the output name, written from the
spec's words for comparison with `output_filename`: replace a trailing
".csv" by ".png", otherwise append ".png". -/
def output_filename_specRule (filename : List Char) : List Char :=
  if csvL.isSuffixOf filename
  then filename.take (filename.length - 4) ++ pngL
  else filename ++ pngL

/-- Outcome of one program run, as far as the observable surface goes:
the error path (FileNotFoundError caught, message printed, sys.exit(1)),
an uncaught exception while loading (e.g. pandas EmptyDataError on an empty
file, which makes Python exit with a traceback and status 1), or the normal
path that saves the chart and prints the saved path. -/
inductive RunResult where
  | fileNotFound (msg : String)
  | loadError
  | success (chartSeries : List Series) (imagePath : String) (msg : String)
deriving DecidableEq

/-- Process exit status of each outcome.  sys.exit(1) and an uncaught
Python exception both terminate the interpreter with status 1. -/
def RunResult.exitCode : RunResult → Nat
  | .fileNotFound _ => 1
  | .loadError => 1
  | .success _ _ _ => 0

/-- The path an image file was written to, if any. -/
def RunResult.imagePath : RunResult → Option String
  | .fileNotFound _ => none
  | .loadError => none
  | .success _ p _ => some p

/-- The message the run prints, if it prints one (the load-error path only
emits an interpreter traceback). -/
def RunResult.message : RunResult → Option String
  | .fileNotFound m => some m
  | .loadError => none
  | .success _ _ m => some m

/-- The whole script as a function of the input filename and the file
behind it: `none` means the path does not resolve to a readable file
(read_csv raises FileNotFoundError, caught: message and sys.exit(1));
`some rows` means the file is readable and its records parse to `rows`.
pandas raises EmptyDataError on a readable empty file, which the script
does not catch, so `some []` aborts before any image is written.
Otherwise the script builds the chart, saves it under `output_filename`
and prints the saved path. -/
def run (filename : String) (file : Option (List Row)) : RunResult :=
  match file with
  | none =>
    .fileNotFound ("Fehler: Datei '" ++ filename ++ "' nicht gefunden.")
  | some [] => .loadError
  | some (r :: rs) =>
    .success (chart (r :: rs)) (output_filename_str filename)
      ("Plot gespeichert als: " ++ output_filename_str filename)

/-! ### Helper lemmas -/

theorem mem_internet {df : List Row} {r : Row} :
    r ∈ internet df ↔ r ∈ df ∧ r.kind = "Internet" := by
  simp [internet, List.mem_filter]

theorem mem_gateway {df : List Row} {r : Row} :
    r ∈ gateway df ↔ r ∈ df ∧ r.kind = "Gateway" := by
  simp [gateway, List.mem_filter]

theorem mem_internet_ok {df : List Row} {r : Row} :
    r ∈ internet_ok df ↔ r ∈ df ∧ r.kind = "Internet" ∧ r.status = "OK" := by
  simp only [internet_ok, internet, List.mem_filter, beq_iff_eq, and_assoc]

theorem mem_gateway_ok {df : List Row} {r : Row} :
    r ∈ gateway_ok df ↔ r ∈ df ∧ r.kind = "Gateway" ∧ r.status = "OK" := by
  simp only [gateway_ok, gateway, List.mem_filter, beq_iff_eq, and_assoc]

theorem mem_net_loss {df : List Row} {r : Row} :
    r ∈ net_loss df ↔ r ∈ df ∧ r.kind = "Internet" ∧ r.status = "TIMEOUT" := by
  simp only [net_loss, internet, List.mem_filter, beq_iff_eq, and_assoc]

theorem mem_gw_loss {df : List Row} {r : Row} :
    r ∈ gw_loss df ↔ r ∈ df ∧ r.kind = "Gateway" ∧ r.status = "TIMEOUT" := by
  simp only [gw_loss, gateway, List.mem_filter, beq_iff_eq, and_assoc]

theorem diffAux_length (t : List (Option ℚ)) : ∀ prev, (diffAux prev t).length = t.length := by
  induction t with
  | nil => intro prev; rfl
  | cons x t ih => intro prev; simp [diffAux, ih]

theorem jitterSeries_length (xs : List (Option ℚ)) : (jitterSeries xs).length = xs.length := by
  cases xs with
  | nil => rfl
  | cons x t => simp [jitterSeries, fillna, seriesAbs, seriesDiff, diffAux_length]

theorem jitterSeries_head (x : Option ℚ) (t : List (Option ℚ)) :
    (jitterSeries (x :: t)).head? = some 0 := rfl

theorem diffAux_getElem? (t : List (Option ℚ)) :
    ∀ (prev : Option ℚ) (i : Nat) (oa ob : Option ℚ),
      (prev :: t)[i]? = some oa → t[i]? = some ob →
      (diffAux prev t)[i]? = some (optSub ob oa) := by
  induction t with
  | nil =>
    intro prev i oa ob h1 h2
    simp at h2
  | cons x t ih =>
    intro prev i oa ob h1 h2
    cases i with
    | zero =>
      simp only [List.getElem?_cons_zero, Option.some.injEq] at h1 h2
      rw [← h1, ← h2]
      simp [diffAux]
    | succ n =>
      simp only [List.getElem?_cons_succ] at h1 h2
      simpa [diffAux] using ih x n oa ob h1 h2

theorem jitterSeries_getElem? (xs : List (Option ℚ)) (i : Nat) (a b : ℚ)
    (ha : xs[i]? = some (some a)) (hb : xs[i + 1]? = some (some b)) :
    (jitterSeries xs)[i + 1]? = some |b - a| := by
  cases xs with
  | nil => simp at ha
  | cons x t =>
    have ht : t[i]? = some (some b) := by
      rw [← List.getElem?_cons_succ (a := x)]
      exact hb
    have hdiff : (diffAux x t)[i]? = some (optSub (some b) (some a)) :=
      diffAux_getElem? t x i (some a) (some b) ha ht
    simp [jitterSeries, fillna, seriesAbs, seriesDiff, List.getElem?_map,
      List.getElem?_cons_succ, hdiff, optSub]

theorem replaceCsvPng_cons (c : Char) (rest : List Char)
    (hne : ∀ rest', ¬ (c = '.' ∧ rest = 'c' :: 's' :: 'v' :: rest')) :
    replaceCsvPng (c :: rest) = c :: replaceCsvPng rest := by
  rw [replaceCsvPng.eq_def]
  split
  · rename_i rest' heq
    injection heq with h1 h2
    exact absurd ⟨h1, h2⟩ (hne rest')
  · rename_i c' rest' hno heq
    injection heq with h1 h2
    rw [h1, h2]
  · rename_i heq
    simp at heq

theorem replaceCsvPng_of_not_infix (s : List Char) (h : ¬ csvL <:+: s) :
    replaceCsvPng s = s := by
  induction s with
  | nil => rfl
  | cons c rest ih =>
    have hne : ∀ rest', ¬ (c = '.' ∧ rest = 'c' :: 's' :: 'v' :: rest') := by
      rintro rest' ⟨hc, hr⟩
      exact h ⟨[], rest', by rw [hc, hr]; rfl⟩
    rw [replaceCsvPng_cons c rest hne]
    rw [ih (fun hc => h (List.infix_cons hc))]

theorem replaceCsvPng_append_csv (base rest : List Char) (h : ¬ csvL <:+: base) :
    replaceCsvPng (base ++ (csvL ++ rest)) = base ++ (pngL ++ replaceCsvPng rest) := by
  induction base with
  | nil => rfl
  | cons c b ih =>
    rw [List.cons_append]
    have hne : ∀ rest', ¬ (c = '.' ∧ b ++ (csvL ++ rest) = 'c' :: 's' :: 'v' :: rest') := by
      rintro rest' ⟨hc, hr⟩
      rcases b with _ | ⟨d1, b⟩
      · injection hr with e1
        exact absurd e1 (by decide)
      · injection hr with e1 hr
        rcases b with _ | ⟨d2, b⟩
        · injection hr with e2
          exact absurd e2 (by decide)
        · injection hr with e2 hr
          rcases b with _ | ⟨d3, b⟩
          · injection hr with e3
            exact absurd e3 (by decide)
          · injection hr with e3 hr
            exact h ⟨[], b, by rw [hc, e1, e2, e3]; rfl⟩
    rw [replaceCsvPng_cons c (b ++ (csvL ++ rest)) hne]
    rw [ih (fun hc => h (List.infix_cons hc)), List.cons_append]

theorem y_loss_level_of_no_ok {df : List Row} (h : internet_ok df = []) :
    y_loss_level df = some 100 := by
  rw [y_loss_level]
  simp only [h, List.isEmpty_nil, if_true]
  norm_num

theorem y_loss_level_of_max {df : List Row} {m : ℚ}
    (h : seriesMax (internet_ok_latency df) = some m) :
    y_loss_level df = some (if m < 50 then 50 else m) := by
  have hne : (internet_ok df).isEmpty = false := by
    cases hd : internet_ok df with
    | nil =>
      rw [internet_ok_latency, hd] at h
      simp [seriesMax] at h
    | cons r t => rfl
  rw [y_loss_level]
  simp only [hne, if_false, Bool.false_eq_true, h]
  split <;> rfl

theorem y_loss_level_ge {df : List Row} {v : ℚ} (h : y_loss_level df = some v) :
    50 ≤ v := by
  rw [y_loss_level] at h
  split at h
  · simp at h
  · rename_i w hw
    split at h
    · rw [Option.some.injEq] at h
      rw [← h]
    · rename_i hlt
      rw [Option.some.injEq] at h
      rw [← h]
      exact le_of_not_lt hlt

theorem chart_scatter_ys (df : List Row) (s : Series) (hs : s ∈ chart df)
    (hsc : s.isScatter = true) :
    s.ys = List.replicate s.xs.length (y_loss_level df) := by
  rw [chart] at hs
  rcases List.mem_append.mp hs with hs | hgl
  rcases List.mem_append.mp hs with hs | hnl
  rcases List.mem_append.mp hs with hil | hgw
  · rcases List.mem_cons.mp hil with h | h
    · rw [h] at hsc; simp at hsc
    · rw [List.mem_singleton] at h; rw [h] at hsc; simp at hsc
  · split at hgw
    · simp at hgw
    · rcases List.mem_cons.mp hgw with h | h
      · rw [h] at hsc; simp at hsc
      · rw [List.mem_singleton] at h; rw [h] at hsc; simp at hsc
  · split at hnl
    · simp at hnl
    · rw [List.mem_singleton] at hnl
      rw [hnl]
      simp [List.length_map]
  · split at hgl
    · simp at hgl
    · rw [List.mem_singleton] at hgl
      rw [hgl]
      simp [List.length_map]

/-! ### Claim theorems -/

/-- C1: for each kind-partition the jitter column is computed over the
status=OK-filtered subsequence (TIMEOUT samples are skipped, not
zero-filled): it has the same length as that filtered subsequence, its
first element is 0, and every later element equals the absolute difference
between that sample's latency and the latency of the immediately preceding
OK sample of the same filtered subsequence. -/
theorem jitter_is_ok_filtered_first_difference (df : List Row) :
    ((internet_ok_jitter df).length = (internet_ok df).length
      ∧ (internet_ok df ≠ [] → (internet_ok_jitter df).head? = some 0)
      ∧ (∀ i a b, (internet_ok_latency df)[i]? = some (some a) →
          (internet_ok_latency df)[i + 1]? = some (some b) →
          (internet_ok_jitter df)[i + 1]? = some |b - a|))
    ∧ ((gateway_ok_jitter df).length = (gateway_ok df).length
      ∧ (gateway_ok df ≠ [] → (gateway_ok_jitter df).head? = some 0)
      ∧ (∀ i a b, (gateway_ok_latency df)[i]? = some (some a) →
          (gateway_ok_latency df)[i + 1]? = some (some b) →
          (gateway_ok_jitter df)[i + 1]? = some |b - a|)) := by
  refine ⟨⟨?_, ?_, ?_⟩, ?_, ?_, ?_⟩
  · rw [internet_ok_jitter, jitterSeries_length, internet_ok_latency, List.length_map]
  · intro h
    cases hd : internet_ok df with
    | nil => exact absurd hd h
    | cons r t =>
      rw [internet_ok_jitter, internet_ok_latency, hd, List.map_cons]
      exact jitterSeries_head _ _
  · intro i a b ha hb
    exact jitterSeries_getElem? _ i a b ha hb
  · rw [gateway_ok_jitter, jitterSeries_length, gateway_ok_latency, List.length_map]
  · intro h
    cases hd : gateway_ok df with
    | nil => exact absurd hd h
    | cons r t =>
      rw [gateway_ok_jitter, gateway_ok_latency, hd, List.map_cons]
      exact jitterSeries_head _ _
  · intro i a b ha hb
    exact jitterSeries_getElem? _ i a b ha hb

/-- Witness for C1: on a log with OK latencies 10 and 14 separated by a
TIMEOUT row, the jitter series is two elements long, starts at 0, and the
second element is |14 - 10| = 4. -/
theorem jitter_is_ok_filtered_first_difference_witness :
    (internet_ok_jitter
        [⟨"t1", "Internet", "8.8.8.8", some 10, "OK"⟩,
         ⟨"t2", "Internet", "8.8.8.8", none, "TIMEOUT"⟩,
         ⟨"t3", "Internet", "8.8.8.8", some 14, "OK"⟩]).length = 2
    ∧ (internet_ok_jitter
        [⟨"t1", "Internet", "8.8.8.8", some 10, "OK"⟩,
         ⟨"t2", "Internet", "8.8.8.8", none, "TIMEOUT"⟩,
         ⟨"t3", "Internet", "8.8.8.8", some 14, "OK"⟩]).head? = some 0
    ∧ (internet_ok_jitter
        [⟨"t1", "Internet", "8.8.8.8", some 10, "OK"⟩,
         ⟨"t2", "Internet", "8.8.8.8", none, "TIMEOUT"⟩,
         ⟨"t3", "Internet", "8.8.8.8", some 14, "OK"⟩])[1]? = some 4 := by
  have h := jitter_is_ok_filtered_first_difference
    [⟨"t1", "Internet", "8.8.8.8", some 10, "OK"⟩,
     ⟨"t2", "Internet", "8.8.8.8", none, "TIMEOUT"⟩,
     ⟨"t3", "Internet", "8.8.8.8", some 14, "OK"⟩]
  refine ⟨h.1.1.trans (by decide), h.1.2.1 (by decide), ?_⟩
  have h2 := h.1.2.2 0 10 14 (by with_unfolding_all decide) (by with_unfolding_all decide)
  rw [h2]
  with_unfolding_all decide

/-- C2: a sample is in the loss set of its kind exactly when its status is
TIMEOUT, and each loss set is a sublist of the input, hence preserves the
original order. -/
theorem loss_is_timeout_filtered (df : List Row) (r : Row) :
    (net_loss df).Sublist df ∧ (gw_loss df).Sublist df
    ∧ (r ∈ df → r.kind = "Internet" → (r ∈ net_loss df ↔ r.status = "TIMEOUT"))
    ∧ (r ∈ df → r.kind = "Gateway" → (r ∈ gw_loss df ↔ r.status = "TIMEOUT")) := by
  refine ⟨(List.filter_sublist _).trans (List.filter_sublist df),
    (List.filter_sublist _).trans (List.filter_sublist df), ?_, ?_⟩
  · intro hmem hk
    rw [mem_net_loss]
    exact ⟨fun h => h.2.2, fun h => ⟨hmem, hk, h⟩⟩
  · intro hmem hk
    rw [mem_gw_loss]
    exact ⟨fun h => h.2.2, fun h => ⟨hmem, hk, h⟩⟩

/-- Witness for C2: on a concrete log the internet loss set is an
order-preserving sublist and contains the TIMEOUT row. -/
theorem loss_is_timeout_filtered_witness :
    (net_loss
        [⟨"t1", "Internet", "8.8.8.8", some 10, "OK"⟩,
         ⟨"t2", "Internet", "8.8.8.8", none, "TIMEOUT"⟩,
         ⟨"t3", "Gateway", "192.168.1.1", none, "TIMEOUT"⟩]).Sublist
      [⟨"t1", "Internet", "8.8.8.8", some 10, "OK"⟩,
       ⟨"t2", "Internet", "8.8.8.8", none, "TIMEOUT"⟩,
       ⟨"t3", "Gateway", "192.168.1.1", none, "TIMEOUT"⟩]
    ∧ (⟨"t2", "Internet", "8.8.8.8", none, "TIMEOUT"⟩ : Row) ∈ net_loss
        [⟨"t1", "Internet", "8.8.8.8", some 10, "OK"⟩,
         ⟨"t2", "Internet", "8.8.8.8", none, "TIMEOUT"⟩,
         ⟨"t3", "Gateway", "192.168.1.1", none, "TIMEOUT"⟩] := by
  have h := loss_is_timeout_filtered
    [⟨"t1", "Internet", "8.8.8.8", some 10, "OK"⟩,
     ⟨"t2", "Internet", "8.8.8.8", none, "TIMEOUT"⟩,
     ⟨"t3", "Gateway", "192.168.1.1", none, "TIMEOUT"⟩]
    ⟨"t2", "Internet", "8.8.8.8", none, "TIMEOUT"⟩
  exact ⟨h.1, (h.2.2.1 (by decide) rfl).mpr rfl⟩

/-- C3: partitioning by kind is order-preserving (each partition is a
sublist of the input) and exhaustive: every input row lands in exactly one
of the two partitions, or in neither when its kind is neither "Internet"
nor "Gateway", and never in both. -/
theorem partition_exhaustive_order_preserving (df : List Row) (r : Row) :
    (internet df).Sublist df ∧ (gateway df).Sublist df
    ∧ (r ∈ df →
        (r ∈ internet df ∧ r ∉ gateway df)
        ∨ (r ∈ gateway df ∧ r ∉ internet df)
        ∨ (r ∉ internet df ∧ r ∉ gateway df
            ∧ r.kind ≠ "Internet" ∧ r.kind ≠ "Gateway")) := by
  refine ⟨List.filter_sublist df, List.filter_sublist df, ?_⟩
  intro hmem
  by_cases hI : r.kind = "Internet"
  · refine Or.inl ⟨mem_internet.mpr ⟨hmem, hI⟩, fun hg => ?_⟩
    have hG := (mem_gateway.mp hg).2
    rw [hI] at hG
    exact absurd hG (by decide)
  · by_cases hG : r.kind = "Gateway"
    · exact Or.inr (Or.inl ⟨mem_gateway.mpr ⟨hmem, hG⟩,
        fun hi => hI (mem_internet.mp hi).2⟩)
    · exact Or.inr (Or.inr ⟨fun hi => hI (mem_internet.mp hi).2,
        fun hg => hG (mem_gateway.mp hg).2, hI, hG⟩)

/-- Witness for C3 at a concrete log and row. -/
theorem partition_exhaustive_order_preserving_witness :
    (internet
        [⟨"t1", "Internet", "8.8.8.8", some 10, "OK"⟩,
         ⟨"t2", "Gateway", "192.168.1.1", some 5, "OK"⟩]).Sublist
      [⟨"t1", "Internet", "8.8.8.8", some 10, "OK"⟩,
       ⟨"t2", "Gateway", "192.168.1.1", some 5, "OK"⟩]
    ∧ (((⟨"t1", "Internet", "8.8.8.8", some 10, "OK"⟩ : Row) ∈ internet
          [⟨"t1", "Internet", "8.8.8.8", some 10, "OK"⟩,
           ⟨"t2", "Gateway", "192.168.1.1", some 5, "OK"⟩]
        ∧ (⟨"t1", "Internet", "8.8.8.8", some 10, "OK"⟩ : Row) ∉ gateway
          [⟨"t1", "Internet", "8.8.8.8", some 10, "OK"⟩,
           ⟨"t2", "Gateway", "192.168.1.1", some 5, "OK"⟩])
      ∨ ((⟨"t1", "Internet", "8.8.8.8", some 10, "OK"⟩ : Row) ∈ gateway
          [⟨"t1", "Internet", "8.8.8.8", some 10, "OK"⟩,
           ⟨"t2", "Gateway", "192.168.1.1", some 5, "OK"⟩]
        ∧ (⟨"t1", "Internet", "8.8.8.8", some 10, "OK"⟩ : Row) ∉ internet
          [⟨"t1", "Internet", "8.8.8.8", some 10, "OK"⟩,
           ⟨"t2", "Gateway", "192.168.1.1", some 5, "OK"⟩])
      ∨ ((⟨"t1", "Internet", "8.8.8.8", some 10, "OK"⟩ : Row) ∉ internet
          [⟨"t1", "Internet", "8.8.8.8", some 10, "OK"⟩,
           ⟨"t2", "Gateway", "192.168.1.1", some 5, "OK"⟩]
        ∧ (⟨"t1", "Internet", "8.8.8.8", some 10, "OK"⟩ : Row) ∉ gateway
          [⟨"t1", "Internet", "8.8.8.8", some 10, "OK"⟩,
           ⟨"t2", "Gateway", "192.168.1.1", some 5, "OK"⟩]
        ∧ (⟨"t1", "Internet", "8.8.8.8", some 10, "OK"⟩ : Row).kind ≠ "Internet"
        ∧ (⟨"t1", "Internet", "8.8.8.8", some 10, "OK"⟩ : Row).kind ≠ "Gateway")) := by
  have h := partition_exhaustive_order_preserving
    [⟨"t1", "Internet", "8.8.8.8", some 10, "OK"⟩,
     ⟨"t2", "Gateway", "192.168.1.1", some 5, "OK"⟩]
    ⟨"t1", "Internet", "8.8.8.8", some 10, "OK"⟩
  exact ⟨h.1, h.2.2 (by decide)⟩

/-- C4 counterexample: Python str.replace substitutes every occurrence of
".csv", not only a trailing one, so the input name "a.csv.txt" (which has
no ".csv" suffix) does not get ".png" appended as the claim's rule demands:
the script produces "a.png.txt" instead of "a.csv.txt.png". -/
theorem output_filename_suffix_rule_fails :
    output_filename ("a.csv.txt".toList) = "a.png.txt".toList
    ∧ output_filename_specRule ("a.csv.txt".toList) = "a.csv.txt.png".toList
    ∧ output_filename ("a.csv.txt".toList)
        ≠ output_filename_specRule ("a.csv.txt".toList) := by
  decide

/-- C4 amended: the output name is obtained by replacing every occurrence
of the substring ".csv" by ".png" (left to right, non-overlapping); when
the name contains no occurrence at all, ".png" is appended.  This is
stated as the full recursive characterisation of the replacement: every
name either contains no ".csv" (and is returned with ".png" appended), or
splits uniquely as base ++ ".csv" ++ rest around its first occurrence, in
which case that occurrence becomes ".png" and scanning continues on
`rest` — which may itself hold further (interior or repeated)
occurrences, all replaced in turn. -/
theorem output_filename_replaces_every_occurrence (base rest : List Char)
    (h : ¬ csvL <:+: base) :
    replaceCsvPng base = base
    ∧ output_filename base = base ++ pngL
    ∧ replaceCsvPng (base ++ (csvL ++ rest)) = base ++ (pngL ++ replaceCsvPng rest)
    ∧ output_filename (base ++ (csvL ++ rest)) = base ++ (pngL ++ replaceCsvPng rest) := by
  have h1 := replaceCsvPng_of_not_infix base h
  have h2 := replaceCsvPng_append_csv base rest h
  refine ⟨h1, ?_, h2, ?_⟩
  · rw [output_filename, if_pos h1, h1]
  · rw [output_filename, h2, if_neg ?_]
    intro heq
    have h3 : ('.' :: 'p' :: 'n' :: 'g' :: replaceCsvPng rest)
        = ('.' :: 'c' :: 's' :: 'v' :: rest) := List.append_cancel_left heq
    injection h3 with e1 h4
    injection h4 with e2 h5
    exact absurd e2 (by decide)

/-- Witness for C4 (amended): the three example names of the spec, plus a
name with an interior occurrence and a name with a repeated occurrence of
".csv". -/
theorem output_filename_replaces_every_occurrence_witness :
    output_filename ("log.csv".toList) = "log.png".toList
    ∧ output_filename ("log.txt".toList) = "log.txt.png".toList
    ∧ output_filename ("log".toList) = "log.png".toList
    ∧ output_filename ("a.csvx".toList) = "a.pngx".toList
    ∧ output_filename ("a.csv.csv".toList) = "a.png.png".toList := by
  have h1 := output_filename_replaces_every_occurrence ("log".toList) [] (by decide)
  have h2 := output_filename_replaces_every_occurrence ("log.txt".toList) [] (by decide)
  have h3 := output_filename_replaces_every_occurrence ("a".toList) ("x".toList) (by decide)
  have h4 := output_filename_replaces_every_occurrence ("a".toList) (".csv".toList) (by decide)
  exact ⟨h1.2.2.2, h2.2.1, h1.2.1, h3.2.2.2, h4.2.2.2⟩

/-- C5 counterexample: an empty readable file makes pandas read_csv raise
EmptyDataError, which the script does not catch, so the interpreter exits
with status 1 and no image although the input was readable. -/
theorem readable_empty_file_nonzero_exit :
    (run "log.csv" (some ([] : List Row))).exitCode = 1
    ∧ (run "log.csv" (some ([] : List Row))).imagePath = none := by
  exact ⟨rfl, rfl⟩

/-- C5 amended: when the input path does not resolve to a readable file
the script prints an error message containing the filename, exits with
code 1 and writes no image; every readable input that pandas parses into a
non-empty record list exits with code 0 and writes the image. -/
theorem missing_file_error_and_exit_codes (filename : String) (rows : List Row) :
    ((run filename none).exitCode = 1
      ∧ (run filename none).imagePath = none
      ∧ (run filename none).message
          = some ("Fehler: Datei '" ++ filename ++ "' nicht gefunden."))
    ∧ (rows ≠ [] → (run filename (some rows)).exitCode = 0
        ∧ (run filename (some rows)).imagePath = some (output_filename_str filename)) := by
  refine ⟨⟨rfl, rfl, rfl⟩, ?_⟩
  intro h
  cases rows with
  | nil => exact absurd rfl h
  | cons r rs => exact ⟨rfl, rfl⟩

/-- Witness for C5 (amended) at concrete inputs. -/
theorem missing_file_error_and_exit_codes_witness :
    (run "nope.csv" none).exitCode = 1
    ∧ (run "log.csv" (some [⟨"t1", "Internet", "8.8.8.8", some 10, "OK"⟩])).exitCode = 0 := by
  have h1 := missing_file_error_and_exit_codes "nope.csv" ([] : List Row)
  have h2 := missing_file_error_and_exit_codes "log.csv"
    [⟨"t1", "Internet", "8.8.8.8", some 10, "OK"⟩]
  exact ⟨h1.1.1, (h2.2 (by decide)).1⟩

/-- C6: the loss-marker level is the maximum latency of the OK-filtered
internet partition, replaced by 50 when that maximum is below 50, and the
fallback 100 when the internet partition has no OK samples. -/
theorem y_loss_level_spec (df : List Row) :
    (internet_ok df = [] → y_loss_level df = some 100)
    ∧ (∀ m, seriesMax (internet_ok_latency df) = some m →
        y_loss_level df = some (if m < 50 then 50 else m)) :=
  ⟨fun h => y_loss_level_of_no_ok h, fun _ h => y_loss_level_of_max h⟩

/-- Witness for C6: internet-OK latencies [10, 20, 5] give level 50 and
[80, 60] give level 80. -/
theorem y_loss_level_spec_witness :
    y_loss_level
        [⟨"t1", "Internet", "8.8.8.8", some 10, "OK"⟩,
         ⟨"t2", "Internet", "8.8.8.8", some 20, "OK"⟩,
         ⟨"t3", "Internet", "8.8.8.8", some 5, "OK"⟩] = some 50
    ∧ y_loss_level
        [⟨"t1", "Internet", "8.8.8.8", some 80, "OK"⟩,
         ⟨"t2", "Internet", "8.8.8.8", some 60, "OK"⟩] = some 80 := by
  have hA := (y_loss_level_spec
    [⟨"t1", "Internet", "8.8.8.8", some 10, "OK"⟩,
     ⟨"t2", "Internet", "8.8.8.8", some 20, "OK"⟩,
     ⟨"t3", "Internet", "8.8.8.8", some 5, "OK"⟩]).2 20 (by with_unfolding_all decide)
  have hB := (y_loss_level_spec
    [⟨"t1", "Internet", "8.8.8.8", some 80, "OK"⟩,
     ⟨"t2", "Internet", "8.8.8.8", some 60, "OK"⟩]).2 80 (by with_unfolding_all decide)
  rw [hA, hB, if_pos (by norm_num : (20 : ℚ) < 50), if_neg (by norm_num : ¬ (80 : ℚ) < 50)]
  exact ⟨rfl, rfl⟩

/-- C7 counterexample: the two internet plot calls are made
unconditionally, so an input whose internet partition is empty still puts
an internet latency and an internet jitter series (with empty data and a
"?" target label) on the chart, against the claim's universal quantifier
over kinds. -/
theorem internet_series_drawn_despite_empty_partition :
    internet [⟨"t1", "Gateway", "192.168.1.1", some 5, "OK"⟩] = []
    ∧ (chart [⟨"t1", "Gateway", "192.168.1.1", some 5, "OK"⟩]).map Series.label
      = ["Internet Ping (?)", "Internet Jitter",
         "Gateway Ping (192.168.1.1)", "Gateway Jitter"] := by
  with_unfolding_all decide

/-- C7 amended: when the Gateway partition is empty, no gateway latency,
jitter or loss series is drawn (the chart consists of the two internet
line series plus, at most, the internet loss scatter), no error is raised
and the image is still produced; the internet latency and jitter series
are, however, added unconditionally, with empty data when the internet
partition is empty. -/
theorem gateway_series_omitted_when_empty (df : List Row) (filename : String)
    (hg : gateway df = []) (hne : df ≠ []) :
    (chart df).map Series.label
      = ["Internet Ping (" ++ firstTarget (internet_ok df) ++ ")", "Internet Jitter"]
        ++ (if (net_loss df).isEmpty then [] else ["Internet Loss"])
    ∧ (run filename (some df)).exitCode = 0
    ∧ (run filename (some df)).imagePath = some (output_filename_str filename) := by
  have hgo : gateway_ok df = [] := by rw [gateway_ok, hg]; rfl
  have hgl : gw_loss df = [] := by rw [gw_loss, hg]; rfl
  refine ⟨?_, ?_⟩
  · rw [chart, hgo, hgl]
    simp [List.map_append, apply_ite (List.map Series.label)]
  · cases df with
    | nil => exact absurd rfl hne
    | cons r rs => exact ⟨rfl, rfl⟩

/-- Witness for C7 (amended) at a concrete internet-only log. -/
theorem gateway_series_omitted_when_empty_witness :
    (chart [⟨"t1", "Internet", "8.8.8.8", some 12, "OK"⟩]).map Series.label
      = ["Internet Ping (8.8.8.8)", "Internet Jitter"]
    ∧ (run "log.csv" (some [⟨"t1", "Internet", "8.8.8.8", some 12, "OK"⟩])).exitCode = 0 := by
  have h := gateway_series_omitted_when_empty
    [⟨"t1", "Internet", "8.8.8.8", some 12, "OK"⟩] "log.csv" (by decide) (by decide)
  exact ⟨h.1.trans (by with_unfolding_all decide), h.2.1⟩

/-- C8: a row whose kind is the literal "Router" matches neither partition
filter, so it lands in no partition and is dropped from the latency,
jitter and loss views. -/
theorem router_rows_in_no_view (df : List Row) (r : Row) (hmem : r ∈ df)
    (hk : r.kind = "Router") :
    r ∉ internet df ∧ r ∉ gateway df ∧ r ∉ internet_ok df ∧ r ∉ gateway_ok df
    ∧ r ∉ net_loss df ∧ r ∉ gw_loss df := by
  have hI : r.kind ≠ "Internet" := by rw [hk]; decide
  have hG : r.kind ≠ "Gateway" := by rw [hk]; decide
  exact ⟨fun h => hI (mem_internet.mp h).2, fun h => hG (mem_gateway.mp h).2,
    fun h => hI (mem_internet_ok.mp h).2.1, fun h => hG (mem_gateway_ok.mp h).2.1,
    fun h => hI (mem_net_loss.mp h).2.1, fun h => hG (mem_gw_loss.mp h).2.1⟩

/-- Witness for C8: a concrete "Router" row is in neither partition. -/
theorem router_rows_in_no_view_witness :
    (⟨"t1", "Router", "192.168.1.1", some 3, "OK"⟩ : Row) ∉ internet
        [⟨"t1", "Router", "192.168.1.1", some 3, "OK"⟩]
    ∧ (⟨"t1", "Router", "192.168.1.1", some 3, "OK"⟩ : Row) ∉ gateway
        [⟨"t1", "Router", "192.168.1.1", some 3, "OK"⟩] := by
  have h := router_rows_in_no_view
    [⟨"t1", "Router", "192.168.1.1", some 3, "OK"⟩]
    ⟨"t1", "Router", "192.168.1.1", some 3, "OK"⟩ (by decide) rfl
  exact ⟨h.1, h.2.1⟩

/-- C9 counterexample: with an internet-OK row whose latency field is
empty (NaN) and an internet TIMEOUT row, internet_ok is non-empty but its
latency maximum is NaN; NaN < 50 is False in Python, so the marker level
stays NaN — the loss scatter is drawn at level NaN, which is not a number
greater than or equal to 50. -/
theorem loss_marker_level_nan_counterexample :
    y_loss_level
        [⟨"t1", "Internet", "8.8.8.8", none, "OK"⟩,
         ⟨"t2", "Internet", "8.8.8.8", none, "TIMEOUT"⟩] = none
    ∧ ((chart
        [⟨"t1", "Internet", "8.8.8.8", none, "OK"⟩,
         ⟨"t2", "Internet", "8.8.8.8", none, "TIMEOUT"⟩]).filter
          (fun s => s.isScatter)).map Series.ys = [[none]] := by
  with_unfolding_all decide

/-- C9 amended: whenever the loss-marker level is a number it is at least
50, and the one `y_loss_level` value is the level of every loss scatter
series of the chart, for both kinds; the level fails to be a number only
when internet_ok is non-empty with a NaN latency maximum. -/
theorem loss_marker_level_bound (df : List Row) :
    (∀ v, y_loss_level df = some v → 50 ≤ v)
    ∧ (∀ s ∈ chart df, s.isScatter = true →
        s.ys = List.replicate s.xs.length (y_loss_level df)) :=
  ⟨fun _ h => y_loss_level_ge h, fun s hs hsc => chart_scatter_ys df s hs hsc⟩

/-- Witness for C9 (amended): on the empty log the level is the fallback
100 and the bound 50 ≤ 100 follows from the theorem. -/
theorem loss_marker_level_bound_witness :
    y_loss_level ([] : List Row) = some 100 ∧ (50 : ℚ) ≤ 100 := by
  refine ⟨by with_unfolding_all decide, ?_⟩
  exact (loss_marker_level_bound []).1 100 (by with_unfolding_all decide)

/-- C10: the saved image path and the saved-path message depend only on
the input path argument: any two runs on the same path whose files are
readable and produce an image write it to the identical path and print
the identical message, whatever the file contents. -/
theorem output_path_depends_only_on_input_path (filename : String)
    (rows1 rows2 : List Row) (p1 p2 : String)
    (h1 : (run filename (some rows1)).imagePath = some p1)
    (h2 : (run filename (some rows2)).imagePath = some p2) :
    p1 = p2
    ∧ (run filename (some rows1)).message = (run filename (some rows2)).message := by
  cases rows1 with
  | nil => simp [run, RunResult.imagePath] at h1
  | cons r1 t1 =>
    cases rows2 with
    | nil => simp [run, RunResult.imagePath] at h2
    | cons r2 t2 =>
      simp only [run, RunResult.imagePath, Option.some.injEq] at h1 h2
      rw [← h1, ← h2]
      exact ⟨rfl, rfl⟩

/-- Witness for C10: two runs on "log.csv" with different contents save to
"log.png" and print the same message. -/
theorem output_path_depends_only_on_input_path_witness :
    "log.png" = "log.png"
    ∧ (run "log.csv" (some [⟨"t1", "Internet", "8.8.8.8", some 10, "OK"⟩])).message
      = (run "log.csv"
          (some [⟨"t4", "Gateway", "192.168.1.1", some 7, "OK"⟩,
                 ⟨"t5", "Gateway", "192.168.1.1", none, "TIMEOUT"⟩])).message := by
  exact output_path_depends_only_on_input_path "log.csv"
    [⟨"t1", "Internet", "8.8.8.8", some 10, "OK"⟩]
    [⟨"t4", "Gateway", "192.168.1.1", some 7, "OK"⟩,
     ⟨"t5", "Gateway", "192.168.1.1", none, "TIMEOUT"⟩]
    "log.png" "log.png" (by decide) (by decide)

end RenderPlot
